import Mathlib

/-!
# Trap and interrupt dispatch of xv6-k210 (`kernel/trap.c`)

A shallow embedding of `kernel/trap.c`: the device interrupt classifier
`devintr`, the user trap path `usertrap` / `usertrapret`, the kernel trap
handler `kerneltrap`, the tick service `clockintr` and the diagnostic dump
`trapframedump`.

Machine words are natural numbers; 64-bit arithmetic is reduced modulo `2^64`
and the `uint` tick counter modulo `2^32` where the C code can overflow.
Control and status registers, the tick counter and the current process are
fields of `Machine`.  Functions that `trap.c` calls but does not define
(`syscall`, `yield`, `timer_tick`, the drivers, the PLIC accessors, ...) are
taken from an environment `Env` as arbitrary transformers of the machine; every
such call is also recorded, in call order, in a ghost list of `Event`s.
-/

namespace Trap

/-! ## Data model -/

/-- The build profile: `qemu` is the build with `QEMU` defined (emulated
target), `k210` the build without it (real board). -/
inductive Profile where
  | qemu
  | k210
deriving DecidableEq, Repr

/-- The per-process trap context `struct trapframe`: the kernel-linkage block,
the saved program counter and the saved general-purpose registers, with the
field names `trap.c` uses. -/
structure trapframe where
  kernel_satp : Nat
  kernel_sp : Nat
  kernel_trap : Nat
  epc : Nat
  kernel_hartid : Nat
  ra : Nat
  sp : Nat
  gp : Nat
  tp : Nat
  t0 : Nat
  t1 : Nat
  t2 : Nat
  s0 : Nat
  s1 : Nat
  a0 : Nat
  a1 : Nat
  a2 : Nat
  a3 : Nat
  a4 : Nat
  a5 : Nat
  a6 : Nat
  a7 : Nat
  s2 : Nat
  s3 : Nat
  s4 : Nat
  s5 : Nat
  s6 : Nat
  s7 : Nat
  s8 : Nat
  s9 : Nat
  s10 : Nat
  s11 : Nat
  t3 : Nat
  t4 : Nat
  t5 : Nat
  t6 : Nat
deriving DecidableEq, Repr

/-- The scheduling states of a process (`enum procstate`); `kerneltrap` tests
for `RUNNING`. -/
inductive procstate where
  | UNUSED
  | SLEEPING
  | RUNNABLE
  | RUNNING
  | ZOMBIE
deriving DecidableEq, Repr

/-- The fields of `struct proc` that `trap.c` reads or writes.  `killed` and
`pid` are C `int`s; `kstack` and `pagetable` are 64-bit words. -/
structure proc where
  trapframe : trapframe
  killed : Int
  pid : Int
  kstack : Nat
  pagetable : Nat
  state : procstate
deriving DecidableEq, Repr

/-- The state `trap.c` works on: the supervisor control and status registers,
the `tp` register, the process structure `myproc()` points to together with
the flag `myproc_null` telling that `myproc()` is the null pointer (only
`kerneltrap` tests it; `usertrap` and `usertrapret` dereference `myproc()`
unconditionally, as the source does), the global `ticks` and whether
`tickslock` is held. -/
structure Machine where
  sstatus : Nat
  sepc : Nat
  scause : Nat
  stval : Nat
  stvec : Nat
  satp : Nat
  tp : Nat
  sip : Nat
  sie : Nat
  myproc_null : Bool
  myproc : proc
  ticks : Nat
  tickslock : Bool
deriving DecidableEq, Repr

/-- The messages of the `panic` calls of `trap.c`. -/
inductive PanicMsg where
  | usertrap_not_from_user_mode
  | kerneltrap_not_from_supervisor_mode
  | kerneltrap_interrupts_enabled
  | kerneltrap
deriving DecidableEq, Repr

/-- One call from `trap.c` to a function it does not define, in the order the
calls are made.  `printf` carries the format string and the argument values;
`intr_on`, the point from which a nested trap can be taken, `syscall` and
`wakeup_ticks` (the call `wakeup(&ticks)`) carry the machine state at the
moment of the call; `call` is the final indirect call of `usertrapret` into
the trampoline.  Masking interrupts (`intr_off`) and the register accessors
are state changes only. -/
inductive Event where
  | panic (msg : PanicMsg)
  | printf (fmt : String) (args : List Int)
  | exit (status : Int)
  | intr_on (entry : Machine)
  | syscall (entry : Machine)
  | yield
  | plic_claim (irq : Int)
  | plic_complete (irq : Int)
  | uartintr
  | disk_intr
  | dmac_intr (channel : Nat)
  | timer_tick
  | sbi_set_mie
  | acquire_tickslock
  | wakeup_ticks (entry : Machine)
  | release_tickslock
  | call (fn : Nat) (a0 : Nat) (a1 : Nat)
deriving DecidableEq, Repr

/-- The machine together with the ghost list of calls made so far. -/
structure St where
  m : Machine
  trace : List Event
deriving DecidableEq, Repr

/-- How a handler ends: it returns to its caller, halts in `panic`, ends the
process in `exit` (which does not return), or leaves through the trampoline
call at the end of `usertrapret` (which does not return either). -/
inductive Outcome where
  | returned
  | panicked (msg : PanicMsg)
  | exited (status : Int)
  | userret (fn : Nat) (a0 : Nat) (a1 : Nat)
deriving DecidableEq, Repr

/-- What `trap.c` takes from the rest of the kernel: the functions it calls,
as transformers of the machine (`plic_claim` also yields the claimed id, a C
`int`), and the interrupt numbers, symbol addresses, layout constants and the
`MAKE_SATP` macro of headers that are not part of this file. -/
structure Env where
  plic_claim : Machine → Int × Machine
  plic_complete : Int → Machine → Machine
  uartintr : Machine → Machine
  disk_intr : Machine → Machine
  dmac_intr : Nat → Machine → Machine
  timer_tick : Machine → Machine
  sbi_set_mie : Machine → Machine
  syscall : Machine → Machine
  yield : Machine → Machine
  UART0_IRQ : Int
  VIRTIO0_IRQ : Int
  IRQN_DMA0_INTERRUPT : Int
  IRQN_UARTHS_INTERRUPT : Int
  DMAC_CHANNEL0 : Nat
  kernelvec : Nat
  usertrap : Nat
  trampoline : Nat
  uservec : Nat
  userret : Nat
  TRAMPOLINE : Nat
  TRAPFRAME : Nat
  PGSIZE : Nat
  MAKE_SATP : Nat → Nat

/-! ## Registers and 64-bit arithmetic -/

/-- Modelled from the spec: the `SSTATUS_SPP` mask of `include/riscv.h` (not
under `src/`), the previous-privilege bit of `sstatus`, bit 8. -/
def SSTATUS_SPP : Nat := 1 <<< 8

/-- Modelled from the spec: the `SSTATUS_SPIE` mask of `include/riscv.h`, the
previous-interrupt-enable bit of `sstatus`, bit 5. -/
def SSTATUS_SPIE : Nat := 1 <<< 5

/-- Modelled from the spec: the `SSTATUS_SIE` mask of `include/riscv.h`, the
supervisor interrupt-enable bit of `sstatus`, bit 1. -/
def SSTATUS_SIE : Nat := 1 <<< 1

/-- Addition of `uint64` values. -/
def add64 (a b : Nat) : Nat := (a + b) % 2 ^ 64

/-- Subtraction of `uint64` values. -/
def sub64 (a b : Nat) : Nat := (a + (2 ^ 64 - b % 2 ^ 64)) % 2 ^ 64

/-- The C operator `~` on a 64-bit word. -/
def not64 (a : Nat) : Nat := (2 ^ 64 - 1) ^^^ a

/-- Append one call to the ghost trace. -/
def St.log (s : St) (e : Event) : St :=
  { s with trace := s.trace ++ [e] }

/-- The register write `w_stvec`. -/
def w_stvec (x : Nat) (s : St) : St :=
  { s with m := { s.m with stvec := x } }

/-- The register write `w_sstatus`. -/
def w_sstatus (x : Nat) (s : St) : St :=
  { s with m := { s.m with sstatus := x } }

/-- The register write `w_sepc`. -/
def w_sepc (x : Nat) (s : St) : St :=
  { s with m := { s.m with sepc := x } }

/-- The register write `w_sip`. -/
def w_sip (x : Nat) (s : St) : St :=
  { s with m := { s.m with sip := x } }

/-- Modelled from the spec: `intr_on` of `include/riscv.h`, which sets the
interrupt-enable bit of `sstatus`.  The call is recorded with the machine it
finds, so that what has been done before interrupts are enabled can be read
off the trace. -/
def intr_on (s : St) : St :=
  w_sstatus (s.m.sstatus ||| SSTATUS_SIE) (s.log (.intr_on s.m))

/-- Modelled from the spec: `intr_off` of `include/riscv.h`, which clears the
interrupt-enable bit of `sstatus` and nothing else. -/
def intr_off (s : St) : St :=
  w_sstatus (s.m.sstatus &&& not64 SSTATUS_SIE) s

/-- Modelled from the spec: `intr_get` of `include/riscv.h`: are interrupts
enabled, that is, is the interrupt-enable bit of `sstatus` set. -/
def intr_get (s : St) : Bool :=
  s.m.sstatus &&& SSTATUS_SIE != 0

/-- Store into a field of `p->trapframe`. -/
def St.setTrapframe (s : St) (tf : trapframe) : St :=
  { s with m := { s.m with myproc := { s.m.myproc with trapframe := tf } } }

/-! ## Calls to the rest of the kernel -/

/-- A call of `printf`. -/
def printf (fmt : String) (args : List Int) (s : St) : St :=
  s.log (.printf fmt args)

/-- Modelled from the spec: `panic` of `printf.c` (not under `src/`) halts the
kernel and does not return to its caller. -/
def panic (msg : PanicMsg) (s : St) : Outcome × St :=
  (.panicked msg, s.log (.panic msg))

/-- Modelled from the spec: `exit` of `proc.c` (not under `src/`) terminates
the process and does not return to its caller. -/
def exit (status : Int) (s : St) : Outcome × St :=
  (.exited status, s.log (.exit status))

/-- A call of `plic_claim`. -/
def plic_claim (env : Env) (s : St) : Int × St :=
  let r := env.plic_claim s.m
  (r.1, { m := r.2, trace := s.trace ++ [.plic_claim r.1] })

/-- A call of `plic_complete`. -/
def plic_complete (env : Env) (irq : Int) (s : St) : St :=
  { m := env.plic_complete irq s.m, trace := s.trace ++ [.plic_complete irq] }

/-- A call of `uartintr`. -/
def uartintr (env : Env) (s : St) : St :=
  { m := env.uartintr s.m, trace := s.trace ++ [.uartintr] }

/-- A call of `disk_intr`. -/
def disk_intr (env : Env) (s : St) : St :=
  { m := env.disk_intr s.m, trace := s.trace ++ [.disk_intr] }

/-- A call of `dmac_intr`. -/
def dmac_intr (env : Env) (channel : Nat) (s : St) : St :=
  { m := env.dmac_intr channel s.m, trace := s.trace ++ [.dmac_intr channel] }

/-- A call of `timer_tick`. -/
def timer_tick (env : Env) (s : St) : St :=
  { m := env.timer_tick s.m, trace := s.trace ++ [.timer_tick] }

/-- A call of `sbi_set_mie`. -/
def sbi_set_mie (env : Env) (s : St) : St :=
  { m := env.sbi_set_mie s.m, trace := s.trace ++ [.sbi_set_mie] }

/-- A call of `syscall`; the event records the machine the call starts in. -/
def syscall (env : Env) (s : St) : St :=
  { m := env.syscall s.m, trace := s.trace ++ [.syscall s.m] }

/-- A call of `yield`. -/
def yield (env : Env) (s : St) : St :=
  { m := env.yield s.m, trace := s.trace ++ [.yield] }

/-! ## `devintr` -/

/-- The function `devintr`: decode `scause` (and `stval` on the real board),
serve the interrupt and return 1 for an external device, 2 for the timer,
3 for the real board's software interrupt, 0 when the cause is not
recognized.  The `Profile` argument selects the `#ifdef QEMU` branches; the
`switch` on the claimed id is written as a chain of tests in the order of its
`case` labels. -/
def devintr (pf : Profile) (env : Env) (s : St) : Int × St :=
  let scause := s.m.scause
  if scause &&& 0x8000000000000000 ≠ 0 ∧ scause &&& 0xff = 9 then
    match pf with
    | .qemu =>
      let c := plic_claim env s
      let irq := c.1
      let s1 := c.2
      let s2 :=
        if irq = env.UART0_IRQ then uartintr env s1
        else if irq = env.VIRTIO0_IRQ then disk_intr env s1
        else if irq ≠ 0 then printf "unexpected interrupt irq=%d\n" [irq] s1
        else s1
      let s3 := if irq ≠ 0 then plic_complete env irq s2 else s2
      (1, s3)
    | .k210 => (1, s)
  else if scause = 0x8000000000000005 then
    (2, timer_tick env s)
  else
    match pf with
    | .k210 =>
      if scause = 0x8000000000000001 ∧ s.m.stval = 9 then
        let c := plic_claim env s
        let irq := c.1
        let s1 := c.2
        let s2 :=
          if irq = env.IRQN_DMA0_INTERRUPT then dmac_intr env env.DMAC_CHANNEL0 s1
          else if irq = env.IRQN_UARTHS_INTERRUPT then uartintr env s1
          else s1
        let s3 := if irq ≠ 0 then plic_complete env irq s2 else s2
        let s4 := w_sip (s3.m.sip &&& not64 2) s3
        let s5 := sbi_set_mie env s4
        (3, s5)
      else (0, s)
    | .qemu => (0, s)

/-! ## `trapframedump` -/

/-- The function `trapframedump`: thirty-two `printf` calls, one per saved
register, in the order of the source. -/
def trapframedump (tf : trapframe) (s : St) : St :=
  let s := printf "a0: %p\t" [tf.a0] s
  let s := printf "a1: %p\n" [tf.a1] s
  let s := printf "a2: %p\t" [tf.a2] s
  let s := printf "a3: %p\n" [tf.a3] s
  let s := printf "a4: %p\t" [tf.a4] s
  let s := printf "a5: %p\n" [tf.a5] s
  let s := printf "a6: %p\t" [tf.a6] s
  let s := printf "a7: %p\n" [tf.a7] s
  let s := printf "t0: %p\t" [tf.t0] s
  let s := printf "t1: %p\n" [tf.t1] s
  let s := printf "t2: %p\t" [tf.t2] s
  let s := printf "t3: %p\n" [tf.t3] s
  let s := printf "t4: %p\t" [tf.t4] s
  let s := printf "t5: %p\n" [tf.t5] s
  let s := printf "t6: %p\t" [tf.t6] s
  let s := printf "s0: %p\n" [tf.s0] s
  let s := printf "s1: %p\t" [tf.s1] s
  let s := printf "s2: %p\n" [tf.s2] s
  let s := printf "s3: %p\t" [tf.s3] s
  let s := printf "s4: %p\n" [tf.s4] s
  let s := printf "s5: %p\t" [tf.s5] s
  let s := printf "s6: %p\n" [tf.s6] s
  let s := printf "s7: %p\t" [tf.s7] s
  let s := printf "s8: %p\n" [tf.s8] s
  let s := printf "s9: %p\t" [tf.s9] s
  let s := printf "s10: %p\n" [tf.s10] s
  let s := printf "s11: %p\t" [tf.s11] s
  let s := printf "ra: %p\n" [tf.ra] s
  let s := printf "sp: %p\t" [tf.sp] s
  let s := printf "gp: %p\n" [tf.gp] s
  let s := printf "tp: %p\t" [tf.tp] s
  let s := printf "epc: %p\n" [tf.epc] s
  s

/-! ## `usertrapret` -/

/-- The function `usertrapret`: turn interrupts off, point `stvec` at the
trampoline's `uservec`, fill the kernel-linkage fields of the trap context,
prepare `sstatus` and `sepc` for `sret`, and call the trampoline's `userret`
with `TRAPFRAME` and the user page-table token.  That call does not return. -/
def usertrapret (env : Env) (s : St) : Outcome × St :=
  let s := intr_off s
  let s := w_stvec (add64 env.TRAMPOLINE (sub64 env.uservec env.trampoline)) s
  let s := s.setTrapframe { s.m.myproc.trapframe with kernel_satp := s.m.satp }
  let s := s.setTrapframe
    { s.m.myproc.trapframe with kernel_sp := add64 s.m.myproc.kstack env.PGSIZE }
  let s := s.setTrapframe { s.m.myproc.trapframe with kernel_trap := env.usertrap }
  let s := s.setTrapframe { s.m.myproc.trapframe with kernel_hartid := s.m.tp }
  let x := s.m.sstatus
  let x := x &&& not64 SSTATUS_SPP
  let x := x ||| SSTATUS_SPIE
  let s := w_sstatus x s
  let s := w_sepc s.m.myproc.trapframe.epc s
  let satp := env.MAKE_SATP s.m.myproc.pagetable
  let fn := add64 env.TRAMPOLINE (sub64 env.userret env.trampoline)
  (.userret fn env.TRAPFRAME satp, s.log (.call fn env.TRAPFRAME satp))

/-! ## `usertrap` -/

/-- The statements of `usertrap` after its `if` / `else if` / `else` chain:
terminate a killed process, yield on a timer interrupt, then `usertrapret`. -/
def usertrap_finish (env : Env) (which_dev : Int) (s : St) : Outcome × St :=
  if s.m.myproc.killed ≠ 0 then
    exit (-1) s
  else
    let s := if which_dev = 2 then yield env s else s
    usertrapret env s

/-- The function `usertrap`: the handler of a trap taken in user mode. -/
def usertrap (pf : Profile) (env : Env) (s : St) : Outcome × St :=
  if s.m.sstatus &&& SSTATUS_SPP ≠ 0 then
    panic .usertrap_not_from_user_mode s
  else
    let s := w_stvec env.kernelvec s
    let s := s.setTrapframe { s.m.myproc.trapframe with epc := s.m.sepc }
    if s.m.scause = 8 then
      if s.m.myproc.killed ≠ 0 then
        exit (-1) s
      else
        let s := s.setTrapframe
          { s.m.myproc.trapframe with epc := add64 s.m.myproc.trapframe.epc 4 }
        let s := intr_on s
        let s := syscall env s
        usertrap_finish env 0 s
    else
      let d := devintr pf env s
      if d.1 ≠ 0 then
        usertrap_finish env d.1 d.2
      else
        let s := d.2
        let s := printf "usertrap(): unexpected scause %p pid=%d\n"
          [s.m.scause, s.m.myproc.pid] s
        let s := printf "            sepc=%p stval=%p\n" [s.m.sepc, s.m.stval] s
        let s := trapframedump s.m.myproc.trapframe s
        let s := { s with m := { s.m with myproc := { s.m.myproc with killed := 1 } } }
        usertrap_finish env 0 s

/-! ## `kerneltrap` -/

/-- The function `kerneltrap`: the handler of a trap taken in kernel code. -/
def kerneltrap (pf : Profile) (env : Env) (s : St) : Outcome × St :=
  let sepc := s.m.sepc
  let sstatus := s.m.sstatus
  let scause := s.m.scause
  if sstatus &&& SSTATUS_SPP = 0 then
    panic .kerneltrap_not_from_supervisor_mode s
  else if intr_get s then
    panic .kerneltrap_interrupts_enabled s
  else
    let d := devintr pf env s
    if d.1 = 0 then
      let s := printf "scause %p\n" [scause] d.2
      let s := printf "sepc=%p stval=%p hart=%d\n" [s.m.sepc, s.m.stval, s.m.tp] s
      panic .kerneltrap s
    else
      let s :=
        if d.1 = 2 ∧ d.2.m.myproc_null = false ∧ d.2.m.myproc.state = .RUNNING then
          yield env d.2
        else d.2
      let s := w_sepc sepc s
      let s := w_sstatus sstatus s
      (.returned, s)

/-! ## `clockintr` -/

/-- Modelled from the spec: `acquire(&tickslock)` of `spinlock.c` (not under
`src/`) takes the tick-counter lock. -/
def acquire_tickslock (s : St) : St :=
  { m := { s.m with tickslock := true }, trace := s.trace ++ [.acquire_tickslock] }

/-- Modelled from the spec: `release(&tickslock)` of `spinlock.c` gives the
tick-counter lock back. -/
def release_tickslock (s : St) : St :=
  { m := { s.m with tickslock := false }, trace := s.trace ++ [.release_tickslock] }

/-- Modelled from the spec: `wakeup(&ticks)` of `proc.c` wakes the waiters
blocked on the counter's address; it changes nothing of this file's state. -/
def wakeup_ticks (s : St) : St :=
  s.log (.wakeup_ticks s.m)

/-- Modelled from the spec: the width of the C type `uint` of the tick counter
(`typedef unsigned int uint` of `include/types.h`, not under `src/`): 32 bits
on this 64-bit RISC-V target, where `uint64` is the separate 64-bit type. -/
def UINT_BITS : Nat := 32

/-- The function `clockintr`: under `tickslock`, `ticks++` on a `uint`, then
`wakeup(&ticks)`. -/
def clockintr (s : St) : St :=
  let s := acquire_tickslock s
  let s := { s with m := { s.m with ticks := (s.m.ticks + 1) % 2 ^ UINT_BITS } }
  let s := wakeup_ticks s
  let s := release_tickslock s
  s

/-! ## Reading the trace -/

/-- Is the event a `plic_claim` call. -/
def Event.isClaim : Event → Bool
  | .plic_claim _ => true
  | _ => false

/-- Is the event a `plic_complete` call. -/
def Event.isComplete : Event → Bool
  | .plic_complete _ => true
  | _ => false

/-- Is the event the call of a device interrupt handler. -/
def Event.isHandler : Event → Bool
  | .uartintr => true
  | .disk_intr => true
  | .dmac_intr _ => true
  | _ => false

/-- Is the event an `intr_on` call. -/
def Event.isIntrOn : Event → Bool
  | .intr_on _ => true
  | _ => false

/-- Is the event a `syscall` call. -/
def Event.isSyscall : Event → Bool
  | .syscall _ => true
  | _ => false

/-- Is the event a `yield` call. -/
def Event.isYield : Event → Bool
  | .yield => true
  | _ => false

/-- The classification the specification assigns to a cause, an auxiliary trap
value and a build profile: 1 external device, 2 timer, 3 the real board's
software event, 0 unrecognized. -/
def classification (pf : Profile) (scause stval : Nat) : Int :=
  if scause.testBit 63 = true ∧ scause &&& 0xff = 9 then 1
  else if scause = 0x8000000000000005 then 2
  else if pf = .k210 ∧ scause = 0x8000000000000001 ∧ stval = 9 then 3
  else 0

/-! ## Sample inputs -/

/-- A sample trap context. -/
def tf0 : trapframe :=
  { kernel_satp := 0, kernel_sp := 0, kernel_trap := 0, epc := 0x1000,
    kernel_hartid := 0, ra := 1, sp := 2, gp := 3, tp := 4, t0 := 5, t1 := 6,
    t2 := 7, s0 := 8, s1 := 9, a0 := 10, a1 := 11, a2 := 12, a3 := 13,
    a4 := 14, a5 := 15, a6 := 16, a7 := 17, s2 := 18, s3 := 19, s4 := 20,
    s5 := 21, s6 := 22, s7 := 23, s8 := 24, s9 := 25, s10 := 26, s11 := 27,
    t3 := 28, t4 := 29, t5 := 30, t6 := 31 }

/-- A sample process: running, not killed. -/
def proc0 : proc :=
  { trapframe := tf0, killed := 0, pid := 3, kstack := 0x3fffffd000,
    pagetable := 0x80400000, state := .RUNNING }

/-- A sample machine with the given `sstatus`, `scause` and `stval`. -/
def machine0 (sstatus scause stval : Nat) : Machine :=
  { sstatus := sstatus, sepc := 0x2000, scause := scause, stval := stval,
    stvec := 0x80000100, satp := 0x8000000000080000, tp := 1, sip := 2,
    sie := 0x222, myproc_null := false, myproc := proc0, ticks := 41,
    tickslock := false }

/-- A sample environment: the controller hands out `irq`; the drivers leave
the machine alone; `syscall` stores a result in `a0`; `yield` comes back with
`scause`, `sepc` and `sstatus` overwritten by a nested trap. -/
def env0 (irq : Int) : Env :=
  { plic_claim := fun m => (irq, m),
    plic_complete := fun _ m => m,
    uartintr := fun m => m,
    disk_intr := fun m => m,
    dmac_intr := fun _ m => m,
    timer_tick := fun m => { m with ticks := (m.ticks + 1) % 2 ^ 32 },
    sbi_set_mie := fun m => m,
    syscall := fun m =>
      { m with myproc := { m.myproc with trapframe := { m.myproc.trapframe with a0 := 0 } } },
    yield := fun m =>
      { m with scause := 0x8000000000000009, sepc := 0x80001234, sstatus := 0x120 },
    UART0_IRQ := 10,
    VIRTIO0_IRQ := 1,
    IRQN_DMA0_INTERRUPT := 27,
    IRQN_UARTHS_INTERRUPT := 33,
    DMAC_CHANNEL0 := 0,
    kernelvec := 0x80000100,
    usertrap := 0x80002000,
    trampoline := 0x80009000,
    uservec := 0x80009000,
    userret := 0x80009090,
    TRAMPOLINE := 0x3ffffff000,
    TRAPFRAME := 0x3fffffe000,
    PGSIZE := 4096,
    MAKE_SATP := fun pt => (8 <<< 60) ||| (pt >>> 12) }

/-- The machine after the first two statements of `usertrap` on `m`: `stvec`
points at `kernelvec` and the saved program counter holds `sepc`. -/
def usertrap_entry (env : Env) (m : Machine) : Machine :=
  { m with
    stvec := env.kernelvec,
    myproc := { m.myproc with trapframe := { m.myproc.trapframe with epc := m.sepc } } }

/-- The machine in which `usertrap`, entered on `m`, calls `intr_on`: as
`usertrap_entry`, with the saved program counter advanced by 4 modulo `2^64`;
`sstatus` is still the entry value. -/
def usertrap_intr_on_entry (env : Env) (m : Machine) : Machine :=
  { m with
    stvec := env.kernelvec,
    myproc := { m.myproc with
      trapframe := { m.myproc.trapframe with epc := (m.sepc + 4) % 2 ^ 64 } } }

/-- The machine `usertrap` hands to `syscall` when entered on `m`: as
`usertrap_entry`, with the saved program counter advanced by 4 modulo `2^64`
and the interrupt-enable bit of `sstatus` set. -/
def usertrap_syscall_entry (env : Env) (m : Machine) : Machine :=
  { m with
    stvec := env.kernelvec,
    sstatus := m.sstatus ||| SSTATUS_SIE,
    myproc := { m.myproc with
      trapframe := { m.myproc.trapframe with epc := (m.sepc + 4) % 2 ^ 64 } } }

/-- The sample machine with its process flagged killed. -/
def machine0_killed (sstatus scause stval : Nat) : Machine :=
  { machine0 sstatus scause stval with myproc := { proc0 with killed := 1 } }

/-! ## Bit lemmas -/

theorem and_two_pow_63_ne_zero (n : Nat) :
    n &&& 0x8000000000000000 ≠ 0 ↔ n.testBit 63 = true := by
  have h63 : (0x8000000000000000 : Nat) = 2 ^ 63 := by norm_num
  rw [h63]
  constructor
  · intro h
    obtain ⟨i, hi⟩ := Nat.ne_zero_implies_bit_true h
    rw [Nat.testBit_and, Nat.testBit_two_pow] at hi
    simp only [Bool.and_eq_true, decide_eq_true_eq] at hi
    obtain ⟨h1, h2⟩ := hi
    subst h2
    exact h1
  · intro h hz
    have h2 : (n &&& 2 ^ 63).testBit 63 = true := by
      rw [Nat.testBit_and, Nat.testBit_two_pow, h]
      simp
    rw [hz] at h2
    simp at h2

/-! ## The device interrupt classifier -/

theorem devintr_fst (pf : Profile) (env : Env) (s : St) :
    (devintr pf env s).1 = classification pf s.m.scause s.m.stval := by
  unfold devintr classification
  simp only [and_two_pow_63_ne_zero]
  cases pf <;> split_ifs <;> simp_all

theorem devintr_of_timer (pf : Profile) (env : Env) (s : St)
    (h : (devintr pf env s).1 = 2) : devintr pf env s = (2, timer_tick env s) := by
  simp only [devintr] at h ⊢
  cases pf <;> split_ifs at h ⊢ <;> simp_all

theorem devintr_of_unrecognized (pf : Profile) (env : Env) (s : St)
    (h : (devintr pf env s).1 = 0) : devintr pf env s = (0, s) := by
  simp only [devintr] at h ⊢
  cases pf <;> split_ifs at h ⊢ <;> simp_all

theorem devintr_fst_entry (pf : Profile) (env : Env) (m : Machine) (t : List Event) :
    (devintr pf env ⟨usertrap_entry env m, t⟩).1 = (devintr pf env ⟨m, []⟩).1 := by
  rw [devintr_fst, devintr_fst]
  rfl

/-- C1: for every cause, every auxiliary trap value and each build profile, the
value `devintr` returns is the classification of (profile, `scause`, `stval`)
- 1 when bit 63 of `scause` is set and its low byte is 9, otherwise 2 when
`scause` is `0x8000000000000005`, otherwise 3 on the real board when `scause`
is `0x8000000000000001` and `stval` is 9, otherwise 0 - whatever the
environment (the claimed id included) and the rest of the state are; on the
emulated profile it is never 3. -/
theorem devintr_result (pf : Profile) (env : Env) (s : St) :
    (devintr pf env s).1 = classification pf s.m.scause s.m.stval ∧
    (devintr .qemu env s).1 ≠ 3 := by
  refine ⟨devintr_fst pf env s, ?_⟩
  rw [devintr_fst]
  unfold classification
  split_ifs <;> simp_all

/-- C2, as stated, fails on the real-board profile: with the asynchronous bit
set and low byte 9 (`scause = 0x8000000000000009`) and a controller that would
hand out the nonzero id 5, `devintr` returns 1 without calling anything: no
claim and no complete. -/
theorem devintr_external_k210_no_claim :
    (machine0 0x100 0x8000000000000009 0).scause.testBit 63 = true ∧
    (machine0 0x100 0x8000000000000009 0).scause &&& 0xff = 9 ∧
    ((env0 5).plic_claim (machine0 0x100 0x8000000000000009 0)).1 = 5 ∧
    (devintr .k210 (env0 5) ⟨machine0 0x100 0x8000000000000009 0, []⟩).1 = 1 ∧
    (devintr .k210 (env0 5) ⟨machine0 0x100 0x8000000000000009 0, []⟩).2.trace = [] := by
  decide

/-- C2, amended: for every cause with the asynchronous bit set and low byte 9,
on the emulated profile `devintr` first claims one id `irq` from the
controller, calls `uartintr` when `irq` is the console's id, `disk_intr` when
it is the disk's, and no device handler otherwise; it calls `plic_complete`
exactly once, last and with that same id, when `irq` is nonzero, and not at all
when `irq` is 0; the result is 1.  On the real-board profile it calls nothing
(no claim, no complete) and the result is 1 as well. -/
theorem devintr_external (env : Env) (m : Machine)
    (h63 : m.scause.testBit 63 = true) (h9 : m.scause &&& 0xff = 9) :
    (devintr .qemu env ⟨m, []⟩).1 = 1 ∧
    (devintr .qemu env ⟨m, []⟩).2.trace.head? = some (.plic_claim (env.plic_claim m).1) ∧
    (devintr .qemu env ⟨m, []⟩).2.trace.filter Event.isClaim
      = [.plic_claim (env.plic_claim m).1] ∧
    (if (env.plic_claim m).1 ≠ 0 then
      (devintr .qemu env ⟨m, []⟩).2.trace.filter Event.isComplete
        = [.plic_complete (env.plic_claim m).1] ∧
      (devintr .qemu env ⟨m, []⟩).2.trace.getLast?
        = some (.plic_complete (env.plic_claim m).1)
    else
      (devintr .qemu env ⟨m, []⟩).2.trace.filter Event.isComplete = []) ∧
    (devintr .qemu env ⟨m, []⟩).2.trace.filter Event.isHandler
      = (if (env.plic_claim m).1 = env.UART0_IRQ then [.uartintr]
         else if (env.plic_claim m).1 = env.VIRTIO0_IRQ then [.disk_intr] else []) ∧
    (devintr .k210 env ⟨m, []⟩).1 = 1 ∧
    (devintr .k210 env ⟨m, []⟩).2.trace = [] := by
  have hb : m.scause &&& 0x8000000000000000 ≠ 0 := (and_two_pow_63_ne_zero _).2 h63
  generalize hc : env.plic_claim m = c
  obtain ⟨irq, m1⟩ := c
  simp only [devintr, plic_claim, hc, uartintr, disk_intr, printf, St.log, plic_complete]
  by_cases h0 : irq = 0 <;>
  by_cases h1 : irq = env.UART0_IRQ <;>
  by_cases h2 : irq = env.VIRTIO0_IRQ <;>
  simp [hb, h9, h0, h1, h2, Event.isClaim, Event.isComplete, Event.isHandler]
  all_goals simp_all [Event.isClaim, Event.isComplete, Event.isHandler]

/-- Witness for `devintr_external`: `scause = 0x8000000000000009` with a
controller handing out the id 5, which is neither the console's nor the
disk's. -/
theorem devintr_external_witness :
    (devintr .qemu (env0 5) ⟨machine0 0x100 0x8000000000000009 0, []⟩).2.trace
      = [.plic_claim 5, .printf "unexpected interrupt irq=%d\n" [5], .plic_complete 5] ∧
    (devintr .qemu (env0 5) ⟨machine0 0x100 0x8000000000000009 0, []⟩).2.trace.filter
      Event.isComplete = [.plic_complete 5] ∧
    (devintr .qemu (env0 5) ⟨machine0 0x100 0x8000000000000009 0, []⟩).2.trace.filter
      Event.isHandler = [] :=
  ⟨by decide,
   by
     have h := (devintr_external (env0 5) (machine0 0x100 0x8000000000000009 0)
       (by decide) (by decide)).2.2.2.1
     rw [if_pos (by decide)] at h
     exact h.1,
   (devintr_external (env0 5) (machine0 0x100 0x8000000000000009 0)
      (by decide) (by decide)).2.2.2.2.1⟩

/-! ## The user trap path -/

theorem usertrapret_trace (env : Env) (s : St) :
    (usertrapret env s).2.trace
      = s.trace ++ [.call (add64 env.TRAMPOLINE (sub64 env.userret env.trampoline))
          env.TRAPFRAME (env.MAKE_SATP s.m.myproc.pagetable)] := by
  simp [usertrapret, St.log, St.setTrapframe, w_sepc, w_sstatus, w_stvec, intr_off]

theorem usertrap_finish_zero_trace (env : Env) (s : St) :
    (usertrap_finish env 0 s).2.trace
      = s.trace ++ [if s.m.myproc.killed ≠ 0 then .exit (-1)
          else .call (add64 env.TRAMPOLINE (sub64 env.userret env.trampoline))
            env.TRAPFRAME (env.MAKE_SATP s.m.myproc.pagetable)] := by
  by_cases h : s.m.myproc.killed = 0
  · simp [usertrap_finish, h, usertrapret_trace]
  · simp [usertrap_finish, h, exit, St.log]

/-- C3, as stated, fails when the process is already flagged killed: entered
from user mode with `scause = 8` and `sepc = 0x2000`, `usertrap` ends in
`exit(-1)` with the saved program counter equal to `0x2000`, not `0x2004`. -/
theorem usertrap_syscall_killed_epc :
    (machine0_killed 0x20 8 0).sstatus &&& SSTATUS_SPP = 0 ∧
    (machine0_killed 0x20 8 0).scause = 8 ∧
    (machine0_killed 0x20 8 0).sepc = 0x2000 ∧
    (usertrap .qemu (env0 0) ⟨machine0_killed 0x20 8 0, []⟩).1 = .exited (-1) ∧
    (usertrap .qemu (env0 0) ⟨machine0_killed 0x20 8 0, []⟩).2.m.myproc.trapframe.epc
      = 0x2000 ∧
    (usertrap .qemu (env0 0) ⟨machine0_killed 0x20 8 0, []⟩).2.m.myproc.trapframe.epc
      ≠ (0x2000 + 4) % 2 ^ 64 := by
  decide

/-- C3, amended: on every entry to `usertrap` with previous privilege user and
`scause = 8`: if the process is flagged killed at that checkpoint, `syscall`
is not called, the saved program counter holds `sepc` and the process ends in
`exit(-1)`.  If it is not, the first call is `intr_on`, made on a machine
whose saved program counter already is `sepc + 4` modulo `2^64` and whose
`sstatus` is still the entry value (`sepc` has been read and the saved PC
advanced before interrupts are enabled); the second call is `syscall`, on
that machine with the interrupt-enable bit set; `intr_on` and `syscall` are
each called exactly once, `usertrap` goes on with the statements after the
dispatch, and no `yield` is performed. -/
theorem usertrap_syscall (pf : Profile) (env : Env) (m : Machine)
    (hspp : m.sstatus &&& SSTATUS_SPP = 0) (h8 : m.scause = 8) :
    if m.myproc.killed ≠ 0 then
      usertrap pf env ⟨m, []⟩ = (.exited (-1), ⟨usertrap_entry env m, [.exit (-1)]⟩) ∧
      (usertrap_entry env m).myproc.trapframe.epc = m.sepc
    else
      (usertrap_intr_on_entry env m).myproc.trapframe.epc = (m.sepc + 4) % 2 ^ 64 ∧
      (usertrap_intr_on_entry env m).sstatus = m.sstatus ∧
      (usertrap_syscall_entry env m).myproc.trapframe.epc = (m.sepc + 4) % 2 ^ 64 ∧
      (usertrap_syscall_entry env m).sstatus = m.sstatus ||| SSTATUS_SIE ∧
      (usertrap pf env ⟨m, []⟩).2.trace.take 2
        = [.intr_on (usertrap_intr_on_entry env m),
           .syscall (usertrap_syscall_entry env m)] ∧
      (usertrap pf env ⟨m, []⟩).2.trace.filter Event.isIntrOn
        = [.intr_on (usertrap_intr_on_entry env m)] ∧
      (usertrap pf env ⟨m, []⟩).2.trace.filter Event.isSyscall
        = [.syscall (usertrap_syscall_entry env m)] ∧
      (usertrap pf env ⟨m, []⟩).2.trace.filter Event.isYield = [] ∧
      usertrap pf env ⟨m, []⟩
        = usertrap_finish env 0
            ⟨env.syscall (usertrap_syscall_entry env m),
             [.intr_on (usertrap_intr_on_entry env m),
              .syscall (usertrap_syscall_entry env m)]⟩ := by
  have hfin : ¬ m.myproc.killed ≠ 0 → usertrap pf env ⟨m, []⟩
        = usertrap_finish env 0
            ⟨env.syscall (usertrap_syscall_entry env m),
             [.intr_on (usertrap_intr_on_entry env m),
              .syscall (usertrap_syscall_entry env m)]⟩ := by
    intro hk
    simp only [ne_eq, not_not] at hk
    simp [usertrap, hspp, h8, hk, w_stvec, St.setTrapframe, intr_on, syscall, w_sstatus,
      usertrap_syscall_entry, usertrap_intr_on_entry, add64, St.log]
  split_ifs with hk
  · simp [usertrap, hspp, h8, hk, w_stvec, St.setTrapframe, exit, St.log, usertrap_entry]
  · rw [hfin hk, usertrap_finish_zero_trace]
    refine ⟨rfl, rfl, rfl, rfl, by simp, ?_, ?_, ?_, rfl⟩
    · split_ifs <;> simp [Event.isIntrOn]
    · split_ifs <;> simp [Event.isSyscall]
    · split_ifs <;> simp [Event.isYield]

/-- Witness for `usertrap_syscall`: a system call of a live process with
`sepc = 0x2000`: `intr_on` is called with the saved program counter already at
`0x2004` and the interrupt-enable bit still clear, then `syscall`. -/
theorem usertrap_syscall_witness :
    (usertrap .qemu (env0 0) ⟨machine0 0x20 8 0, []⟩).2.trace.take 2
      = [.intr_on (usertrap_intr_on_entry (env0 0) (machine0 0x20 8 0)),
         .syscall (usertrap_syscall_entry (env0 0) (machine0 0x20 8 0))] ∧
    (usertrap_intr_on_entry (env0 0) (machine0 0x20 8 0)).myproc.trapframe.epc = 0x2004 ∧
    (usertrap_intr_on_entry (env0 0) (machine0 0x20 8 0)).sstatus = 0x20 ∧
    (usertrap_syscall_entry (env0 0) (machine0 0x20 8 0)).sstatus = 0x22 := by
  have h := usertrap_syscall .qemu (env0 0) (machine0 0x20 8 0) (by decide) (by decide)
  rw [if_neg (by decide)] at h
  exact ⟨h.2.2.2.2.1, by decide, by decide, by decide⟩

theorem testBit_not64_two_pow (k i : Nat) :
    (not64 (2 ^ k)).testBit i = (decide (i < 64) ^^ decide (k = i)) := by
  unfold not64
  rw [Nat.testBit_xor, Nat.testBit_two_pow_sub_one, Nat.testBit_two_pow]

theorem testBit_ge_64 (x i : Nat) (hx : x < 2 ^ 64) (hi : 64 ≤ i) :
    x.testBit i = false := by
  apply Nat.testBit_lt_two_pow
  calc x < 2 ^ 64 := hx
    _ ≤ 2 ^ i := Nat.pow_le_pow_right (by norm_num) hi

theorem usertrapret_machine (env : Env) (m : Machine) :
    (usertrapret env ⟨m, []⟩).2.m =
      { m with
        sstatus := ((m.sstatus &&& not64 SSTATUS_SIE) &&& not64 SSTATUS_SPP) ||| SSTATUS_SPIE,
        sepc := m.myproc.trapframe.epc,
        stvec := add64 env.TRAMPOLINE (sub64 env.uservec env.trampoline),
        myproc := { m.myproc with
          trapframe := { m.myproc.trapframe with
            kernel_satp := m.satp,
            kernel_sp := (m.myproc.kstack + env.PGSIZE) % 2 ^ 64,
            kernel_trap := env.usertrap,
            kernel_hartid := m.tp } } } := by
  simp [usertrapret, St.log, St.setTrapframe, w_sepc, w_sstatus, w_stvec, intr_off, add64]

/-- C5: for every 64-bit `sstatus` value at entry, the value `usertrapret`
writes to `sstatus` is `((s with SIE cleared) & ~SSTATUS_SPP) | SSTATUS_SPIE`:
bit 8 (SPP) is clear, bit 5 (SPIE) is set, bit 1 (SIE) is clear as `intr_off`
left it, and every other bit is the bit of the entry value; and `sepc` is
written with the saved program counter of the trap context. -/
theorem usertrapret_sstatus_sepc (env : Env) (m : Machine) (h64 : m.sstatus < 2 ^ 64) :
    (usertrapret env ⟨m, []⟩).2.m.sstatus
      = ((m.sstatus &&& not64 SSTATUS_SIE) &&& not64 SSTATUS_SPP) ||| SSTATUS_SPIE ∧
    (usertrapret env ⟨m, []⟩).2.m.sstatus &&& SSTATUS_SPP = 0 ∧
    (usertrapret env ⟨m, []⟩).2.m.sstatus &&& SSTATUS_SPIE = SSTATUS_SPIE ∧
    (∀ i, (usertrapret env ⟨m, []⟩).2.m.sstatus.testBit i
      = if i = 8 then false else if i = 5 then true else if i = 1 then false
        else m.sstatus.testBit i) ∧
    (usertrapret env ⟨m, []⟩).2.m.sepc = m.myproc.trapframe.epc := by
  have hbits : ∀ i, (((m.sstatus &&& not64 SSTATUS_SIE) &&& not64 SSTATUS_SPP)
      ||| SSTATUS_SPIE).testBit i
      = if i = 8 then false else if i = 5 then true else if i = 1 then false
        else m.sstatus.testBit i := by
    intro i
    have e8 : SSTATUS_SPP = 2 ^ 8 := by decide
    have e5 : SSTATUS_SPIE = 2 ^ 5 := by decide
    have e1 : SSTATUS_SIE = 2 ^ 1 := by decide
    rw [e8, e5, e1, Nat.testBit_or, Nat.testBit_and, Nat.testBit_and,
      testBit_not64_two_pow, testBit_not64_two_pow, Nat.testBit_two_pow]
    by_cases hi : i < 64
    · by_cases h8 : i = 8
      · subst h8; simp
      · by_cases h5 : i = 5
        · subst h5; simp
        · by_cases h1 : i = 1
          · subst h1; simp
          · have h8n : ¬ 8 = i := fun h => h8 h.symm
            have h5n : ¬ 5 = i := fun h => h5 h.symm
            have h1n : ¬ 1 = i := fun h => h1 h.symm
            simp [hi, h8, h5, h1, h8n, h5n, h1n]
    · have hge : 64 ≤ i := Nat.le_of_not_lt hi
      have hx := testBit_ge_64 m.sstatus i h64 hge
      have h8 : ¬ i = 8 := by omega
      have h5 : ¬ i = 5 := by omega
      have h1 : ¬ i = 1 := by omega
      have h5n : ¬ 5 = i := by omega
      simp [hx, h8, h5, h1, h5n]
  rw [usertrapret_machine]
  refine ⟨rfl, ?_, ?_, hbits, rfl⟩
  · apply Nat.eq_of_testBit_eq
    intro i
    have e8 : SSTATUS_SPP = 2 ^ 8 := by decide
    rw [Nat.testBit_and, hbits i, e8, Nat.testBit_two_pow]
    by_cases h8 : i = 8
    · simp [h8]
    · have h8n : ¬ 8 = i := fun h => h8 h.symm
      simp [h8n]
  · apply Nat.eq_of_testBit_eq
    intro i
    have e5 : SSTATUS_SPIE = 2 ^ 5 := by decide
    rw [Nat.testBit_and, hbits i, e5, Nat.testBit_two_pow]
    by_cases h5 : i = 5
    · simp [h5]
    · have h5n : ¬ 5 = i := fun h => h5 h.symm
      simp [h5n]

/-- Witness for `usertrapret_sstatus_sepc`: entry with `sstatus = 0x122` (SPP,
SPIE and SIE all set) leaves `sstatus = 0x20`, and `sepc` is the saved
`0x1000`. -/
theorem usertrapret_sstatus_sepc_witness :
    (usertrapret (env0 0) ⟨machine0 0x122 8 0, []⟩).2.m.sstatus = 0x20 ∧
    (usertrapret (env0 0) ⟨machine0 0x122 8 0, []⟩).2.m.sstatus &&& SSTATUS_SPP = 0 ∧
    (usertrapret (env0 0) ⟨machine0 0x122 8 0, []⟩).2.m.sepc = 0x1000 :=
  ⟨by decide,
   (usertrapret_sstatus_sepc (env0 0) (machine0 0x122 8 0) (by decide)).2.1,
   by decide⟩

/-- C6: for every process and register state, when `usertrapret` makes its
final call into the trampoline (the last event of its trace, which ends it),
the trap context is the entry trap context with `kernel_satp` set to the
`satp` register, `kernel_sp` to `kstack + PGSIZE` modulo `2^64`, `kernel_trap`
to the address of `usertrap` and `kernel_hartid` to the `tp` register; every
other field of the trap context, the saved `epc` and all general-purpose
registers included, is as at entry, as are `satp`, `tp` and the rest of the
process structure. -/
theorem usertrapret_trapframe (env : Env) (m : Machine) :
    (usertrapret env ⟨m, []⟩).2.m.myproc.trapframe
      = { m.myproc.trapframe with
          kernel_satp := m.satp,
          kernel_sp := (m.myproc.kstack + env.PGSIZE) % 2 ^ 64,
          kernel_trap := env.usertrap,
          kernel_hartid := m.tp } ∧
    (usertrapret env ⟨m, []⟩).2.m.myproc
      = { m.myproc with trapframe := (usertrapret env ⟨m, []⟩).2.m.myproc.trapframe } ∧
    (usertrapret env ⟨m, []⟩).2.m.satp = m.satp ∧
    (usertrapret env ⟨m, []⟩).2.m.tp = m.tp ∧
    (usertrapret env ⟨m, []⟩).1
      = .userret (add64 env.TRAMPOLINE (sub64 env.userret env.trampoline)) env.TRAPFRAME
          (env.MAKE_SATP m.myproc.pagetable) ∧
    (usertrapret env ⟨m, []⟩).2.trace
      = [.call (add64 env.TRAMPOLINE (sub64 env.userret env.trampoline)) env.TRAPFRAME
          (env.MAKE_SATP m.myproc.pagetable)] := by
  refine ⟨?_, ?_, ?_, ?_, ?_, ?_⟩
  · rw [usertrapret_machine]
  · rw [usertrapret_machine]
  · rw [usertrapret_machine]
  · rw [usertrapret_machine]
  · simp [usertrapret, St.log, St.setTrapframe, w_sepc, w_sstatus, w_stvec, intr_off]
  · rw [usertrapret_trace]; rfl

/-! ## The tick service -/

/-- C10, as stated, fails at the largest value of the `uint` counter: from
`ticks = 2^32 - 1` one call of `clockintr` leaves `ticks = 0`, which is
neither `t + 1` nor greater than `t`. -/
theorem clockintr_wraps :
    (clockintr ⟨{ machine0 0x100 0 0 with ticks := 2 ^ 32 - 1 }, []⟩).m.ticks = 0 ∧
    (clockintr ⟨{ machine0 0x100 0 0 with ticks := 2 ^ 32 - 1 }, []⟩).m.ticks
      ≠ (2 ^ 32 - 1) + 1 ∧
    ¬ (2 ^ 32 - 1 <
      (clockintr ⟨{ machine0 0x100 0 0 with ticks := 2 ^ 32 - 1 }, []⟩).m.ticks) := by
  decide

/-- C10, amended: for every value `t` of the `uint` tick counter, with
`tickslock` free at entry, one call of `clockintr` acquires the lock, leaves
the counter equal to `t + 1` modulo `2^32` - so equal to `t + 1` and strictly
greater than `t` whenever `t < 2^32 - 1`, and 0 at `t = 2^32 - 1` - issues
exactly one `wakeup` on `ticks`, with the lock held and the counter already
advanced, and releases the lock before returning; nothing else of the machine
is modified. -/
theorem clockintr_ticks (m : Machine) (ht : m.ticks < 2 ^ 32) (hl : m.tickslock = false) :
    (clockintr ⟨m, []⟩).m.ticks = (m.ticks + 1) % 2 ^ 32 ∧
    (if m.ticks < 2 ^ 32 - 1 then
      (clockintr ⟨m, []⟩).m.ticks = m.ticks + 1 ∧ m.ticks < (clockintr ⟨m, []⟩).m.ticks
    else (clockintr ⟨m, []⟩).m.ticks = 0) ∧
    (clockintr ⟨m, []⟩).trace
      = [.acquire_tickslock,
         .wakeup_ticks { m with tickslock := true, ticks := (m.ticks + 1) % 2 ^ 32 },
         .release_tickslock] ∧
    (clockintr ⟨m, []⟩).m = { m with ticks := (m.ticks + 1) % 2 ^ 32 } := by
  have hm : (clockintr ⟨m, []⟩).m = { m with ticks := (m.ticks + 1) % 2 ^ 32 } := by
    simp [clockintr, acquire_tickslock, wakeup_ticks, release_tickslock, St.log, UINT_BITS,
      ← hl]
  have htk : (clockintr ⟨m, []⟩).m.ticks = (m.ticks + 1) % 2 ^ 32 := by rw [hm]
  refine ⟨htk, ?_, ?_, hm⟩
  · rw [htk]
    split_ifs with h
    · have h1 : (m.ticks + 1) % 2 ^ 32 = m.ticks + 1 := Nat.mod_eq_of_lt (by omega)
      omega
    · have h2 : m.ticks + 1 = 2 ^ 32 := by omega
      rw [h2]
      simp
  · simp [clockintr, acquire_tickslock, wakeup_ticks, release_tickslock, St.log, UINT_BITS]

/-- Witness for `clockintr_ticks`: from `ticks = 41` the counter becomes 42. -/
theorem clockintr_ticks_witness :
    (clockintr ⟨machine0 0x100 0 0, []⟩).m.ticks = 42 ∧
    (clockintr ⟨machine0 0x100 0 0, []⟩).m
      = { machine0 0x100 0 0 with ticks := (41 + 1) % 2 ^ 32 } :=
  ⟨by decide, (clockintr_ticks (machine0 0x100 0 0) (by decide) (by decide)).2.2.2⟩

/-! ## The kernel trap handler -/

/-- C4, as stated, fails for the cause register: entered from supervisor mode
with interrupts off on the timer cause `0x8000000000000005`, with a running
process, `kerneltrap` yields and returns; a yield that comes back with
`scause = 0x8000000000000009`, `sepc = 0x80001234` and `sstatus = 0x120`
leaves `scause = 0x8000000000000009` on return, while `sepc` and `sstatus` are
back at their entry values. -/
theorem kerneltrap_scause_not_restored :
    (kerneltrap .qemu (env0 0) ⟨machine0 0x100 0x8000000000000005 0, []⟩).1 = .returned ∧
    (devintr .qemu (env0 0) ⟨machine0 0x100 0x8000000000000005 0, []⟩).1 = 2 ∧
    (kerneltrap .qemu (env0 0) ⟨machine0 0x100 0x8000000000000005 0, []⟩).2.trace
      = [.timer_tick, .yield] ∧
    (kerneltrap .qemu (env0 0) ⟨machine0 0x100 0x8000000000000005 0, []⟩).2.m.scause
      = 0x8000000000000009 ∧
    (kerneltrap .qemu (env0 0) ⟨machine0 0x100 0x8000000000000005 0, []⟩).2.m.scause
      ≠ (machine0 0x100 0x8000000000000005 0).scause ∧
    (kerneltrap .qemu (env0 0) ⟨machine0 0x100 0x8000000000000005 0, []⟩).2.m.sepc
      = (machine0 0x100 0x8000000000000005 0).sepc ∧
    (kerneltrap .qemu (env0 0) ⟨machine0 0x100 0x8000000000000005 0, []⟩).2.m.sstatus
      = (machine0 0x100 0x8000000000000005 0).sstatus := by
  decide

/-- C4, amended: for every non-fatal run of `kerneltrap` in which the
classifier returns Timer and a yield is performed, the exception-PC and status
registers on return are the `sepc` and `sstatus` values captured at entry,
for every machine the yield comes back with; the cause register is not
restored and holds what the yield left in it. -/
theorem kerneltrap_restores (pf : Profile) (env : Env) (m : Machine)
    (hret : (kerneltrap pf env ⟨m, []⟩).1 = .returned)
    (htimer : (devintr pf env ⟨m, []⟩).1 = 2)
    (hyield : Event.yield ∈ (kerneltrap pf env ⟨m, []⟩).2.trace) :
    (kerneltrap pf env ⟨m, []⟩).2.m.sepc = m.sepc ∧
    (kerneltrap pf env ⟨m, []⟩).2.m.sstatus = m.sstatus ∧
    (kerneltrap pf env ⟨m, []⟩).2.m.scause = (env.yield (env.timer_tick m)).scause ∧
    (kerneltrap pf env ⟨m, []⟩).2.m
      = { env.yield (env.timer_tick m) with sepc := m.sepc, sstatus := m.sstatus } := by
  have hd := devintr_of_timer pf env ⟨m, []⟩ htimer
  unfold kerneltrap at hret hyield ⊢
  rw [hd] at hret hyield ⊢
  by_cases h1 : m.sstatus &&& SSTATUS_SPP = 0
  · simp [h1, panic] at hret
  · by_cases h2 : intr_get ⟨m, []⟩ = true
    · simp [h1, h2, panic] at hret
    · by_cases h3 : (env.timer_tick m).myproc_null = false ∧
          (env.timer_tick m).myproc.state = .RUNNING
      · simp [h1, h2, h3, timer_tick, yield, w_sepc, w_sstatus]
      · simp [h1, h2, h3, timer_tick, yield, w_sepc, w_sstatus, St.log] at hyield

/-- Witness for `kerneltrap_restores`: the timer cause with a running process
and a yield that overwrites `sepc` and `sstatus`. -/
theorem kerneltrap_restores_witness :
    (kerneltrap .qemu (env0 0) ⟨machine0 0x100 0x8000000000000005 0, []⟩).2.m.sepc
      = (machine0 0x100 0x8000000000000005 0).sepc ∧
    (kerneltrap .qemu (env0 0) ⟨machine0 0x100 0x8000000000000005 0, []⟩).2.m.sstatus
      = (machine0 0x100 0x8000000000000005 0).sstatus :=
  ⟨(kerneltrap_restores .qemu (env0 0) (machine0 0x100 0x8000000000000005 0)
      (by decide) (by decide) (by decide)).1,
   (kerneltrap_restores .qemu (env0 0) (machine0 0x100 0x8000000000000005 0)
      (by decide) (by decide) (by decide)).2.1⟩

/-- C7: `kerneltrap` ends in `panic` if and only if at entry the
previous-privilege bit of `sstatus` is clear, or interrupts are enabled, or the
classifier returns 0.  When the previous-privilege bit is clear, or else
interrupts are enabled, the `panic` call is the only call made and the
machine is untouched: the classifier has not run, so there is no claim,
complete, device handler, timer tick or yield.  Otherwise, when the classifier
returns 0, the two diagnostic lines are printed before the `panic`; in every
remaining case `kerneltrap` returns. -/
theorem kerneltrap_panic_iff (pf : Profile) (env : Env) (m : Machine) :
    ((∃ msg, (kerneltrap pf env ⟨m, []⟩).1 = .panicked msg) ↔
      (m.sstatus &&& SSTATUS_SPP = 0 ∨ m.sstatus &&& SSTATUS_SIE ≠ 0 ∨
        (devintr pf env ⟨m, []⟩).1 = 0)) ∧
    (if m.sstatus &&& SSTATUS_SPP = 0 then
      kerneltrap pf env ⟨m, []⟩
        = (.panicked .kerneltrap_not_from_supervisor_mode,
           ⟨m, [.panic .kerneltrap_not_from_supervisor_mode]⟩)
    else if m.sstatus &&& SSTATUS_SIE ≠ 0 then
      kerneltrap pf env ⟨m, []⟩
        = (.panicked .kerneltrap_interrupts_enabled,
           ⟨m, [.panic .kerneltrap_interrupts_enabled]⟩)
    else if (devintr pf env ⟨m, []⟩).1 = 0 then
      kerneltrap pf env ⟨m, []⟩
        = (.panicked .kerneltrap,
           ⟨m, [.printf "scause %p\n" [m.scause],
                .printf "sepc=%p stval=%p hart=%d\n" [m.sepc, m.stval, m.tp],
                .panic .kerneltrap]⟩)
    else (kerneltrap pf env ⟨m, []⟩).1 = .returned) := by
  by_cases h1 : m.sstatus &&& SSTATUS_SPP = 0
  · simp [kerneltrap, h1, panic, St.log]
  · by_cases h2 : m.sstatus &&& SSTATUS_SIE = 0
    · by_cases h3 : (devintr pf env ⟨m, []⟩).1 = 0
      · have hd := devintr_of_unrecognized pf env ⟨m, []⟩ h3
        simp [kerneltrap, h1, h2, intr_get, hd, panic, printf, St.log]
      · simp [kerneltrap, h1, h2, h3, intr_get]
    · simp [kerneltrap, h1, h2, intr_get, panic, St.log]

/-! ## Unrecognized causes and yielding -/

theorem trapframedump_m (tf : trapframe) (s : St) : (trapframedump tf s).m = s.m := by
  simp [trapframedump, printf, St.log]

theorem trapframedump_trace (tf : trapframe) (s : St) :
    (trapframedump tf s).trace = s.trace ++ (trapframedump tf ⟨s.m, []⟩).trace := by
  simp [trapframedump, printf, St.log]

theorem trapframedump_filter (tf : trapframe) (m : Machine) (p : Event → Bool)
    (hp : ∀ fmt args, p (.printf fmt args) = false) :
    (trapframedump tf ⟨m, []⟩).trace.filter p = [] := by
  simp [trapframedump, printf, St.log, hp]

theorem usertrap_of_unrecognized (pf : Profile) (env : Env) (m : Machine)
    (h1 : m.sstatus &&& SSTATUS_SPP = 0) (h8 : m.scause ≠ 8)
    (h0 : (devintr pf env ⟨m, []⟩).1 = 0) :
    usertrap pf env ⟨m, []⟩
      = exit (-1)
          ⟨{ usertrap_entry env m with
              myproc := { (usertrap_entry env m).myproc with killed := 1 } },
           [.printf "usertrap(): unexpected scause %p pid=%d\n" [m.scause, m.myproc.pid],
            .printf "            sepc=%p stval=%p\n" [m.sepc, m.stval]]
           ++ (trapframedump (usertrap_entry env m).myproc.trapframe ⟨m, []⟩).trace⟩ := by
  have h0e : (devintr pf env ⟨usertrap_entry env m, []⟩).1 = 0 := by
    rw [devintr_fst_entry]; exact h0
  have hd := devintr_of_unrecognized pf env ⟨usertrap_entry env m, []⟩ h0e
  have hd2 : devintr pf env
      ⟨{ m with
          stvec := env.kernelvec,
          myproc := { m.myproc with
            trapframe := { m.myproc.trapframe with epc := m.sepc } } }, []⟩
      = (0, ⟨usertrap_entry env m, []⟩) := hd
  simp only [usertrap, h1, w_stvec, St.setTrapframe]
  simp only [ne_eq, not_true_eq_false, ite_false, h8, hd2]
  simp only [usertrap_finish, printf, St.log, trapframedump_m]
  rw [trapframedump_trace]
  simp [usertrap_entry, trapframedump, printf, St.log]

theorem usertrap_of_recognized (pf : Profile) (env : Env) (m : Machine)
    (h1 : m.sstatus &&& SSTATUS_SPP = 0) (h8 : m.scause ≠ 8)
    (h0 : (devintr pf env ⟨m, []⟩).1 ≠ 0) :
    usertrap pf env ⟨m, []⟩
      = usertrap_finish env (devintr pf env ⟨usertrap_entry env m, []⟩).1
          (devintr pf env ⟨usertrap_entry env m, []⟩).2 := by
  have h0e : (devintr pf env ⟨usertrap_entry env m, []⟩).1 ≠ 0 := by
    rw [devintr_fst_entry]; exact h0
  have h0f : (devintr pf env
      ⟨{ m with
          stvec := env.kernelvec,
          myproc := { m.myproc with
            trapframe := { m.myproc.trapframe with epc := m.sepc } } }, []⟩).1 ≠ 0 := h0e
  simp only [usertrap, h1, w_stvec, St.setTrapframe]
  simp only [ne_eq, not_true_eq_false, ite_false, h8]
  rw [if_pos h0f]
  rfl

theorem usertrap_of_syscall (pf : Profile) (env : Env) (m : Machine)
    (h1 : m.sstatus &&& SSTATUS_SPP = 0) (h8 : m.scause = 8) :
    usertrap pf env ⟨m, []⟩
      = if m.myproc.killed ≠ 0 then exit (-1) ⟨usertrap_entry env m, []⟩
        else usertrap_finish env 0
          ⟨env.syscall (usertrap_syscall_entry env m),
           [.intr_on (usertrap_intr_on_entry env m),
            .syscall (usertrap_syscall_entry env m)]⟩ := by
  by_cases hk : m.myproc.killed = 0
  · simp [usertrap, h1, h8, hk, w_stvec, St.setTrapframe, intr_on, syscall, w_sstatus,
      usertrap_syscall_entry, usertrap_intr_on_entry, add64, St.log]
  · simp [usertrap, h1, h8, hk, w_stvec, St.setTrapframe, usertrap_entry]

theorem devintr_no_yield (pf : Profile) (env : Env) (m : Machine) :
    (devintr pf env ⟨m, []⟩).2.trace.filter Event.isYield = [] := by
  simp only [devintr]
  cases pf <;> split_ifs <;>
    simp [plic_claim, plic_complete, uartintr, disk_intr, dmac_intr, timer_tick, printf,
      sbi_set_mie, w_sip, St.log, Event.isYield]

theorem usertrap_finish_yield (env : Env) (w : Int) (s : St) :
    (usertrap_finish env w s).2.trace.filter Event.isYield
      = s.trace.filter Event.isYield
        ++ (if s.m.myproc.killed = 0 ∧ w = 2 then [.yield] else []) := by
  by_cases hk : s.m.myproc.killed = 0
  · by_cases hw : w = 2
    · simp [usertrap_finish, hk, hw, usertrapret_trace, yield, Event.isYield]
    · simp [usertrap_finish, hk, hw, usertrapret_trace, Event.isYield]
  · simp [usertrap_finish, hk, exit, St.log, Event.isYield]

/-- C8: `usertrap` ends in `panic` if and only if the previous-privilege bit of
`sstatus` is set at entry, and then the `panic` call is the only call made and
the machine (trap vector and trap context included) is untouched.  On every
entry with that bit clear, a cause other than 8 and classifier result 0,
`usertrap` does not panic: it prints the two diagnostic lines, dumps the trap
context - one line per saved register with the register's value, the last one
the saved program counter, which holds `sepc` - sets the process's `killed`
flag to 1 and ends the process with `exit(-1)`, without calling `yield` or
`syscall`. -/
theorem usertrap_panic_iff (pf : Profile) (env : Env) (m : Machine) :
    ((∃ msg, (usertrap pf env ⟨m, []⟩).1 = .panicked msg) ↔
      m.sstatus &&& SSTATUS_SPP ≠ 0) ∧
    (if m.sstatus &&& SSTATUS_SPP ≠ 0 then
      usertrap pf env ⟨m, []⟩
        = (.panicked .usertrap_not_from_user_mode, ⟨m, [.panic .usertrap_not_from_user_mode]⟩)
    else if m.scause ≠ 8 ∧ (devintr pf env ⟨m, []⟩).1 = 0 then
      (usertrap pf env ⟨m, []⟩).1 = .exited (-1) ∧
      (usertrap pf env ⟨m, []⟩).2.m
        = { usertrap_entry env m with
            myproc := { (usertrap_entry env m).myproc with killed := 1 } } ∧
      (usertrap pf env ⟨m, []⟩).2.trace
        = [.printf "usertrap(): unexpected scause %p pid=%d\n" [m.scause, m.myproc.pid],
           .printf "            sepc=%p stval=%p\n" [m.sepc, m.stval],
           .printf "a0: %p\t" [m.myproc.trapframe.a0],
           .printf "a1: %p\n" [m.myproc.trapframe.a1],
           .printf "a2: %p\t" [m.myproc.trapframe.a2],
           .printf "a3: %p\n" [m.myproc.trapframe.a3],
           .printf "a4: %p\t" [m.myproc.trapframe.a4],
           .printf "a5: %p\n" [m.myproc.trapframe.a5],
           .printf "a6: %p\t" [m.myproc.trapframe.a6],
           .printf "a7: %p\n" [m.myproc.trapframe.a7],
           .printf "t0: %p\t" [m.myproc.trapframe.t0],
           .printf "t1: %p\n" [m.myproc.trapframe.t1],
           .printf "t2: %p\t" [m.myproc.trapframe.t2],
           .printf "t3: %p\n" [m.myproc.trapframe.t3],
           .printf "t4: %p\t" [m.myproc.trapframe.t4],
           .printf "t5: %p\n" [m.myproc.trapframe.t5],
           .printf "t6: %p\t" [m.myproc.trapframe.t6],
           .printf "s0: %p\n" [m.myproc.trapframe.s0],
           .printf "s1: %p\t" [m.myproc.trapframe.s1],
           .printf "s2: %p\n" [m.myproc.trapframe.s2],
           .printf "s3: %p\t" [m.myproc.trapframe.s3],
           .printf "s4: %p\n" [m.myproc.trapframe.s4],
           .printf "s5: %p\t" [m.myproc.trapframe.s5],
           .printf "s6: %p\n" [m.myproc.trapframe.s6],
           .printf "s7: %p\t" [m.myproc.trapframe.s7],
           .printf "s8: %p\n" [m.myproc.trapframe.s8],
           .printf "s9: %p\t" [m.myproc.trapframe.s9],
           .printf "s10: %p\n" [m.myproc.trapframe.s10],
           .printf "s11: %p\t" [m.myproc.trapframe.s11],
           .printf "ra: %p\n" [m.myproc.trapframe.ra],
           .printf "sp: %p\t" [m.myproc.trapframe.sp],
           .printf "gp: %p\n" [m.myproc.trapframe.gp],
           .printf "tp: %p\t" [m.myproc.trapframe.tp],
           .printf "epc: %p\n" [m.sepc],
           .exit (-1)] ∧
      (usertrap pf env ⟨m, []⟩).2.trace.filter Event.isYield = [] ∧
      (usertrap pf env ⟨m, []⟩).2.trace.filter Event.isSyscall = []
    else ∀ msg, (usertrap pf env ⟨m, []⟩).1 ≠ .panicked msg) := by
  by_cases h1 : m.sstatus &&& SSTATUS_SPP = 0
  · have hnp : ∀ msg, (usertrap pf env ⟨m, []⟩).1 ≠ .panicked msg := by
      intro msg
      simp only [usertrap, h1, ne_eq, not_true_eq_false, if_false, usertrap_finish, exit,
        usertrapret]
      split_ifs <;> simp
    by_cases h2 : m.scause ≠ 8 ∧ (devintr pf env ⟨m, []⟩).1 = 0
    · obtain ⟨h8, h0⟩ := h2
      have hu := usertrap_of_unrecognized pf env m h1 h8 h0
      refine ⟨?_, ?_⟩
      · simp [hnp, h1]
      · rw [if_neg (by simpa using h1), if_pos ⟨h8, h0⟩, hu]
        refine ⟨rfl, rfl, ?_, ?_, ?_⟩
        · simp [exit, St.log, trapframedump, printf, usertrap_entry]
        · simp [exit, St.log, Event.isYield, trapframedump_filter]
        · simp [exit, St.log, Event.isSyscall, trapframedump_filter]
    · refine ⟨?_, ?_⟩
      · simp [hnp, h1]
      · rw [if_neg (by simpa using h1), if_neg h2]
        exact hnp
  · simp [usertrap, h1, panic, St.log]

/-- C9: `yield` happens only on the Timer classification.  In `usertrap`
entered with the previous-privilege bit clear, `yield` is called if and only if
the cause is not 8, the classifier returned 2 and the process is not flagged
killed after classification; it is then called exactly once, after the timer
tick and before the trampoline call that ends `usertrapret`.  In a run of
`kerneltrap` that does not panic, `yield` is called, once, if and only if the
classifier returned 2 and after classification `myproc()` is not null and its
state is `RUNNING`.  In particular the classifications 1 and 3 cause no yield
in either path. -/
theorem yield_only_on_timer (pf : Profile) (env : Env) (mu mk : Machine)
    (hspp : mu.sstatus &&& SSTATUS_SPP = 0)
    (hret : (kerneltrap pf env ⟨mk, []⟩).1 = .returned) :
    (if mu.scause ≠ 8 ∧ (devintr pf env ⟨mu, []⟩).1 = 2 ∧
        (devintr pf env ⟨usertrap_entry env mu, []⟩).2.m.myproc.killed = 0 then
      (usertrap pf env ⟨mu, []⟩).2.trace.filter Event.isYield = [.yield] ∧
      (usertrap pf env ⟨mu, []⟩).2.trace
        = [.timer_tick, .yield,
           .call (add64 env.TRAMPOLINE (sub64 env.userret env.trampoline)) env.TRAPFRAME
             (env.MAKE_SATP
               (env.yield (env.timer_tick (usertrap_entry env mu))).myproc.pagetable)]
    else (usertrap pf env ⟨mu, []⟩).2.trace.filter Event.isYield = []) ∧
    (if (devintr pf env ⟨mk, []⟩).1 = 2 ∧
        (devintr pf env ⟨mk, []⟩).2.m.myproc_null = false ∧
        (devintr pf env ⟨mk, []⟩).2.m.myproc.state = .RUNNING then
      (kerneltrap pf env ⟨mk, []⟩).2.trace.filter Event.isYield = [.yield] ∧
      (kerneltrap pf env ⟨mk, []⟩).2.trace = [.timer_tick, .yield]
    else (kerneltrap pf env ⟨mk, []⟩).2.trace.filter Event.isYield = []) := by
  constructor
  · by_cases h8 : mu.scause = 8
    · rw [if_neg (by simp [h8]), usertrap_of_syscall pf env mu hspp h8]
      by_cases hk : mu.myproc.killed = 0
      · simp [hk, usertrap_finish_yield, Event.isYield]
      · simp [hk, exit, St.log, Event.isYield]
    · by_cases h0 : (devintr pf env ⟨mu, []⟩).1 = 0
      · rw [if_neg (by simp [h0]), usertrap_of_unrecognized pf env mu hspp h8 h0]
        simp [exit, St.log, Event.isYield, trapframedump_filter]
      · rw [usertrap_of_recognized pf env mu hspp h8 h0]
        by_cases h2 : (devintr pf env ⟨mu, []⟩).1 = 2
        · have h2e : (devintr pf env ⟨usertrap_entry env mu, []⟩).1 = 2 := by
            rw [devintr_fst_entry]; exact h2
          have hd := devintr_of_timer pf env ⟨usertrap_entry env mu, []⟩ h2e
          rw [hd]
          by_cases hk : (env.timer_tick (usertrap_entry env mu)).myproc.killed = 0
          · simp [h8, h2, hk, timer_tick, usertrap_finish, usertrapret_trace, yield,
              Event.isYield]
          · simp [h8, h2, hk, timer_tick, usertrap_finish, exit, St.log, Event.isYield]
        · have h2e : ¬ (devintr pf env ⟨usertrap_entry env mu, []⟩).1 = 2 := by
            rw [devintr_fst_entry]; exact h2
          rw [if_neg (by simp [h2]), usertrap_finish_yield, devintr_no_yield]
          simp [h2e]
  · have hnp : ¬ (mk.sstatus &&& SSTATUS_SPP = 0) ∧ ¬ (intr_get ⟨mk, []⟩ = true) ∧
        ¬ ((devintr pf env ⟨mk, []⟩).1 = 0) := by
      refine ⟨?_, ?_, ?_⟩
      · intro h
        simp [kerneltrap, h, panic] at hret
      · intro h
        by_cases h1 : mk.sstatus &&& SSTATUS_SPP = 0
        · simp [kerneltrap, h1, panic] at hret
        · simp [kerneltrap, h1, h, panic] at hret
      · intro h
        by_cases h1 : mk.sstatus &&& SSTATUS_SPP = 0
        · simp [kerneltrap, h1, panic] at hret
        · by_cases h2 : intr_get ⟨mk, []⟩ = true
          · simp [kerneltrap, h1, h2, panic] at hret
          · simp [kerneltrap, h1, h2, h, panic] at hret
    obtain ⟨h1, h2, h3⟩ := hnp
    by_cases hc : (devintr pf env ⟨mk, []⟩).1 = 2 ∧
        (devintr pf env ⟨mk, []⟩).2.m.myproc_null = false ∧
        (devintr pf env ⟨mk, []⟩).2.m.myproc.state = .RUNNING
    · rw [if_pos hc]
      have hd := devintr_of_timer pf env ⟨mk, []⟩ hc.1
      have hc2 := hc
      rw [hd] at hc2
      simp only [kerneltrap, h1, h2, if_false, hd]
      simp only [timer_tick] at hc2 ⊢
      simp [hc2, yield, w_sepc, w_sstatus, Event.isYield]
    · rw [if_neg hc]
      simp only [kerneltrap, h1, h2, h3, if_false, if_neg hc, w_sepc, w_sstatus]
      exact devintr_no_yield pf env mk

/-- Witness for `yield_only_on_timer`: a timer interrupt of a running, live
process, taken in user mode and taken in kernel mode. -/
theorem yield_only_on_timer_witness :
    (usertrap .qemu (env0 0) ⟨machine0 0x20 0x8000000000000005 0, []⟩).2.trace.filter
      Event.isYield = [.yield] ∧
    (kerneltrap .qemu (env0 0) ⟨machine0 0x100 0x8000000000000005 0, []⟩).2.trace
      = [.timer_tick, .yield] := by
  have h := yield_only_on_timer .qemu (env0 0) (machine0 0x20 0x8000000000000005 0)
    (machine0 0x100 0x8000000000000005 0) (by decide) (by decide)
  rw [if_pos (by decide), if_pos (by decide)] at h
  exact ⟨h.1.1, h.2.2⟩

end Trap
